import Mathlib

/-!
Shallow embedding of the LSST `db` module (`python/lsst/db/db.py`): a wrapper
around the MySQLdb driver providing connection retry, error classification,
and schema-management helpers.  Driver interactions (connect, ping, execute)
are modelled as explicit outcome parameters; exceptions become an explicit
exception datatype threaded through `Except`.
-/

namespace LsstDb

/-- Python values appearing in the connection keyword mapping: the module
only ever manipulates strings and integers there. -/
inductive PyVal where
  | str (s : String)
  | int (n : Int)
deriving DecidableEq, Repr

/-- Exceptions that flow through the module.  `dbExc` is the module's own
`DbException(errCode, *messages)`; `mysqlErr` is any `MySQLdb.Error`
(including `OperationalError`) carrying `args = (code, message)`;
`mysqlWarning` is a `MySQLdb.Warning`; `nameError` is a Python `NameError`
for an undefined variable name; `typeError`/`valueError`/`indexError` are the
corresponding Python builtins; `other` is any further exception object. -/
inductive PyExc where
  | dbExc (errCode : Nat) (messages : List String)
  | mysqlErr (code : Int) (msg : String)
  | mysqlWarning (msg : String)
  | nameError (name : String)
  | typeError
  | valueError
  | indexError
  | other (tag : String)
deriving DecidableEq, Repr

/-! ### DbException error codes (class constants of `DbException`) -/

def CANT_CONNECT_TO_DB : Nat := 1500
def CANT_EXEC_SCRIPT : Nat := 1505
def DB_EXISTS : Nat := 1510
def DB_DOES_NOT_EXIST : Nat := 1515
def INVALID_CONN_INFO : Nat := 1520
def INVALID_DB_NAME : Nat := 1525
def INVALID_OPT_FILE : Nat := 1527
def SERVER_CONNECT : Nat := 1530
def SERVER_DISCONN : Nat := 1535
def SERVER_ERROR : Nat := 1540
def NO_DB_SELECTED : Nat := 1545
def NOT_CONNECTED : Nat := 1550
def TB_DOES_NOT_EXIST : Nat := 1555
def TB_EXISTS : Nat := 1560
def SERVER_WARNING : Nat := 1900
def INTERNAL : Nat := 9999

/-! ### Error classifier (`Db._mysqlErrorMap`, `_getErrCode`, `_isConnectionError`) -/

/-- `Db._mysqlErrorMap`: map of MySQL-specific error codes to DbException
error codes, kept as the literal association list of the source. -/
def mysqlErrorMap : List (Int × Nat) :=
  [(1007, DB_EXISTS),
   (1008, DB_DOES_NOT_EXIST),
   (1050, TB_EXISTS),
   (1051, TB_DOES_NOT_EXIST),
   (2002, SERVER_CONNECT),
   (2003, SERVER_CONNECT),
   (2006, SERVER_CONNECT),
   (2013, SERVER_CONNECT)]

/-- First-match association lookup, the behaviour of `dict.get` on the
(unique-keyed) dictionaries of the source. -/
def assocLookup {α β : Type} [DecidableEq α] : List (α × β) → α → Option β
  | [], _ => none
  | (k, v) :: rest, key => if k = key then some v else assocLookup rest key

/-- `Db._getErrCode`: `self._mysqlErrorMap.get(mysqlErrCode, DbException.SERVER_ERROR)`. -/
def getErrCode (mysqlErrCode : Int) : Nat :=
  (assocLookup mysqlErrorMap mysqlErrCode).getD SERVER_ERROR

/-- `Db._isConnectionError`: `self._getErrCode(mysqlErrCode) == DbException.SERVER_CONNECT`. -/
def isConnectionError (mysqlErrCode : Int) : Bool :=
  getErrCode mysqlErrCode == SERVER_CONNECT

/-! ### `Db._handleException` -/

/-- Python `"MySQL error %d: %s" % e.args[:2]`. -/
def mysqlMsg (code : Int) (msg : String) : String :=
  "MySQL error " ++ toString code ++ ": " ++ msg

/-- `Db._handleException(e)`: a recognized `MySQLdb.Error` is classified and
wrapped in a `DbException`; a `MySQLdb.Warning` becomes a `DbException` with
code `SERVER_WARNING`; anything else is re-raised unchanged (`raise e`).
The function's value is the exception it raises. -/
def handleException : PyExc → PyExc
  | .mysqlErr code msg => .dbExc (getErrCode code) [mysqlMsg code msg]
  | .mysqlWarning msg => .dbExc SERVER_WARNING ["MySQL warning " ++ msg]
  | e => e

/-- True for a `MySQLdb.Error` instance. -/
def PyExc.isDriverError : PyExc → Bool
  | .mysqlErr _ _ => true
  | _ => false

/-- True for a `MySQLdb.Warning` instance. -/
def PyExc.isDriverWarning : PyExc → Bool
  | .mysqlWarning _ => true
  | _ => false

/-! ### Connect retry loop (`Db._doConnect`) -/

/-- Outcome of one physical `MySQLdb.connect(**kwargs)` call: success, a
`MySQLdb.Error` with `args = (code, message)`, or some other exception that
falls through to the bare `except` clause. -/
inductive AttemptOutcome where
  | success
  | mysqlError (code : Int) (msg : String)
  | otherExc (e : PyExc)
deriving DecidableEq, Repr

deriving instance DecidableEq for Except

/-- Observable behaviour of `_doConnect`: how many physical connect calls it
made, the durations of the `sleep` calls it issued (in order), and whether it
returned normally or raised. -/
structure ConnectTrace where
  attempts : Nat
  sleeps : List Nat
  result : Except PyExc Unit
deriving DecidableEq, Repr

/-- The `while True` loop of `Db._doConnect`, from attempt number `n`;
`outcomes k` is what the driver does on the k-th connect call.  On a
`MySQLdb.Error`, if the attempt counter has reached `attemptMaxNo` or the
code is not a connection error, raise `DbException(getErrCode code, msg)`;
otherwise increment the counter, sleep `sleepLen` when positive, and retry. -/
def doConnectFrom (outcomes : Nat → AttemptOutcome) (attemptMaxNo sleepLen : Nat)
    (n : Nat) : ConnectTrace :=
  match outcomes n with
  | .success => ⟨1, [], .ok ()⟩
  | .otherExc e => ⟨1, [], .error (handleException e)⟩
  | .mysqlError code msg =>
    if h : attemptMaxNo ≤ n ∨ isConnectionError code = false then
      ⟨1, [], .error (.dbExc (getErrCode code) [mysqlMsg code msg])⟩
    else
      let rest := doConnectFrom outcomes attemptMaxNo sleepLen (n + 1)
      ⟨rest.attempts + 1,
       (if 0 < sleepLen then [sleepLen] else []) ++ rest.sleeps,
       rest.result⟩
termination_by attemptMaxNo - n
decreasing_by
  simp only [not_or] at h
  omega

/-- `Db._doConnect`: the loop starts with attempt counter `n = 1`. -/
def doConnect (outcomes : Nat → AttemptOutcome) (attemptMaxNo sleepLen : Nat) :
    ConnectTrace :=
  doConnectFrom outcomes attemptMaxNo sleepLen 1

/-! ### Liveness probe (`Db.isConnected`) -/

/-- Outcome of `self._conn.ping()`: success, a `MySQLdb.OperationalError`
with `args = (code, message)`, or some other exception (not caught by the
`except MySQLdb.OperationalError` clause). -/
inductive PingOutcome where
  | ok
  | opError (code : Int) (msg : String)
  | otherExc (e : PyExc)
deriving DecidableEq, Repr

/-- Result of a Python call: a normal return value or a raised exception. -/
inductive CallResult (α : Type) where
  | ret (v : α)
  | raised (e : PyExc)
deriving DecidableEq, Repr

/-- `Db.isConnected`, as (new `self._conn`, outcome).  With no handle it
returns `False`.  With a handle it pings; on an `OperationalError` whose code
is a connection error the source first evaluates
`"Ping failed with error %d: %s" % error.args[:2]` — but the except clause
bound the exception to `e`, not `error`, so this raises `NameError` for the
undefined name `error` before `self._conn = None` is reached; on any other
`OperationalError` the bare `raise` re-raises the driver exception itself. -/
def isConnected (conn : Option Unit) (ping : PingOutcome) :
    Option Unit × CallResult Bool :=
  match conn with
  | none => (none, .ret false)
  | some _ =>
    match ping with
    | .ok => (some (), .ret true)
    | .opError code msg =>
      if isConnectionError code then
        (some (), .raised (.nameError "error"))
      else
        (some (), .raised (.mysqlErr code msg))
    | .otherExc e => (some (), .raised e)

/-! ### Command execution (`Db._execCommand` statement step) -/

/-- Outcome of `cursor.execute(command)`: success or a raised exception
(with `warnings.filterwarnings("error", category=MySQLdb.Warning)` installed
by `__init__`, a driver warning surfaces here as a raised `MySQLdb.Warning`). -/
inductive ExecOutcome where
  | ok
  | raises (e : PyExc)
deriving DecidableEq, Repr

/-- The `try: cursor.execute(command) except: self._handleException(...)`
step of `Db._execCommand`: any exception is passed to `_handleException`,
whose result is the exception propagated to the caller. -/
def execStatement (outcome : ExecOutcome) : Except PyExc Unit :=
  match outcome with
  | .ok => .ok ()
  | .raises e => .error (handleException e)

/-- Outcome of the `execCommand1` path (`cursor.execute` then
`cursor.fetchone()`): the fetched row (or `None`) on success, or a raised
exception from `execute`. -/
inductive Exec1Outcome where
  | ok (row : Option (List Int))
  | raises (e : PyExc)
deriving DecidableEq, Repr

/-- The `execCommand1` path of `Db._execCommand`: execute, classify any
exception, otherwise return `cursor.fetchone()`. -/
def execStatement1 (outcome : Exec1Outcome) : Except PyExc (Option (List Int)) :=
  match outcome with
  | .ok row => .ok row
  | .raises e => .error (handleException e)

/-! ### Schema operations (`createDb`, `dropDb`, `createTable`, `dropTable`,
`dbExists`).  Each returns the list of SQL statements it issued together with
its normal-or-raised outcome. -/

/-- `Db.createDb(dbName, mayExist)`: a `None` name raises
`DbException(INVALID_DB_NAME, "<None>")` before any statement is issued;
otherwise `CREATE DATABASE` is executed and a `DbException` with code
`DB_EXISTS` is swallowed exactly when `mayExist` is true. -/
def createDb (dbName : Option String) (mayExist : Bool) (outcome : ExecOutcome) :
    List String × Except PyExc Unit :=
  match dbName with
  | none => ([], .error (.dbExc INVALID_DB_NAME ["<None>"]))
  | some name =>
    let cmd := "CREATE DATABASE `" ++ name ++ "`"
    match execStatement outcome with
    | .ok _ => ([cmd], .ok ())
    | .error (.dbExc c msgs) =>
      ([cmd], if c = DB_EXISTS ∧ mayExist = true then .ok ()
              else .error (.dbExc c msgs))
    | .error e => ([cmd], .error e)

/-- `Db.dropDb(dbName, mustExist)`: `DROP DATABASE` is executed and a
`DbException` with code `DB_DOES_NOT_EXIST` is swallowed exactly when
`mustExist` is false. -/
def dropDb (dbName : String) (mustExist : Bool) (outcome : ExecOutcome) :
    List String × Except PyExc Unit :=
  let cmd := "DROP DATABASE `" ++ dbName ++ "`"
  match execStatement outcome with
  | .ok _ => ([cmd], .ok ())
  | .error (.dbExc c msgs) =>
    ([cmd], if c = DB_DOES_NOT_EXIST ∧ mustExist = false then .ok ()
            else .error (.dbExc c msgs))
  | .error e => ([cmd], .error e)

/-- `"`%s`." % dbName if dbName is not None else ""`. -/
def dbNameStrOpt : Option String → String
  | some d => "`" ++ d ++ "`."
  | none => ""

/-- `Db.createTable(tableName, tableSchema, dbName, mayExist)`: `CREATE
TABLE` is executed and a `DbException` with code `TB_EXISTS` is swallowed
exactly when `mayExist` is true. -/
def createTable (tableName tableSchema : String) (dbName : Option String)
    (mayExist : Bool) (outcome : ExecOutcome) : List String × Except PyExc Unit :=
  let cmd := "CREATE TABLE " ++ dbNameStrOpt dbName ++ "`" ++ tableName ++ "` "
      ++ tableSchema
  match execStatement outcome with
  | .ok _ => ([cmd], .ok ())
  | .error (.dbExc c msgs) =>
    ([cmd], if c = TB_EXISTS ∧ mayExist = true then .ok ()
            else .error (.dbExc c msgs))
  | .error e => ([cmd], .error e)

/-- `Db.dropTable(tableName, dbName, mustExist)`: `DROP TABLE` is executed
and a `DbException` with code `TB_DOES_NOT_EXIST` is swallowed exactly when
`mustExist` is false. -/
def dropTable (tableName : String) (dbName : Option String) (mustExist : Bool)
    (outcome : ExecOutcome) : List String × Except PyExc Unit :=
  let cmd := "DROP TABLE " ++ dbNameStrOpt dbName ++ "`" ++ tableName ++ "`"
  match execStatement outcome with
  | .ok _ => ([cmd], .ok ())
  | .error (.dbExc c msgs) =>
    ([cmd], if c = TB_DOES_NOT_EXIST ∧ mustExist = false then .ok ()
            else .error (.dbExc c msgs))
  | .error e => ([cmd], .error e)

/-- `Db.dbExists(dbName)`: a `None` name returns `False` without issuing any
query; otherwise the `information_schema.schemata` count query runs through
`execCommand1` and `count[0] == 1` is returned (a `None` row makes `count[0]`
a `TypeError`, an empty row an `IndexError`). -/
def dbExists (dbName : Option String) (outcome : Exec1Outcome) :
    List String × Except PyExc Bool :=
  match dbName with
  | none => ([], .ok false)
  | some name =>
    let cmd := "SELECT COUNT(*) FROM information_schema.schemata "
        ++ "WHERE schema_name = \x27" ++ name ++ "\x27"
    match execStatement1 outcome with
    | .error e => ([cmd], .error e)
    | .ok none => ([cmd], .error .typeError)
    | .ok (some row) =>
      match row.head? with
      | none => ([cmd], .error .indexError)
      | some x => ([cmd], .ok (x == 1))

/-! ### Construction (`Db.__init__`).  The keyword mapping is modelled as an
association list with unique keys (a Python dict); iteration follows list
order. -/

/-- `Db._connectArgNameMap`: MySQLdb `connect()` keywords mapped to `mysql`
executable option names. -/
def connectArgNameMap : List (String × String) :=
  [("host", "host"),
   ("user", "user"),
   ("passwd", "password"),
   ("db", "database"),
   ("port", "port"),
   ("unix_socket", "socket"),
   ("connect_timeout", "connect_timeout"),
   ("compress", "compress"),
   ("named_pipe", "pipe"),
   ("read_default_file", "defaults-file"),
   ("charset", "default-character-set"),
   ("local_infile", "local-infile")]

/-- Python `key in dict`. -/
def dictContains {β : Type} (kw : List (String × β)) (key : String) : Bool :=
  (kw.map Prod.fst).contains key

/-- Python `dict.pop(key, default)`: the popped value (or the default) and
the remaining dictionary. -/
def dictPop (kw : List (String × PyVal)) (key : String) (dflt : PyVal) :
    PyVal × List (String × PyVal) :=
  match assocLookup kw key with
  | some v => (v, kw.filter (fun p => !(p.1 == key)))
  | none => (dflt, kw)

/-- Python `dict[key] = v`: replace the value at an existing key, else append
the binding. -/
def dictSet (kw : List (String × PyVal)) (key : String) (v : PyVal) :
    List (String × PyVal) :=
  if dictContains kw key then
    kw.map (fun p => if p.1 == key then (p.1, v) else p)
  else kw ++ [(key, v)]

/-- Python `dict.get(key, default)`. -/
def dictGetD (kw : List (String × PyVal)) (key : String) (dflt : PyVal) : PyVal :=
  (assocLookup kw key).getD dflt

/-- Python `repr` of a short identifier-like string. -/
def pyRepr (s : String) : String := "\x27" ++ s ++ "\x27"

/-- Python `1 + v` for the popped `maxRetryCount`: defined for an int,
a `TypeError` (`none`) for a string. -/
def pyAddOne : PyVal → Option Int
  | .int n => some (1 + n)
  | .str _ => none

/-- Python `int(v)`: identity on ints, string parsing (a failure is a
`ValueError`). -/
def pyToInt : PyVal → Option Int
  | .int n => some n
  | .str s => s.toInt?

/-- The keyword dictionary after `__init__` popped the two retry-policy
scalars `sleepLen` and `maxRetryCount`. -/
def kwAfterPops (kwargs : List (String × PyVal)) : List (String × PyVal) :=
  (dictPop (dictPop kwargs "sleepLen" (.int 3)).2 "maxRetryCount" (.int 0)).2

/-- The value popped for `sleepLen` (default 3). -/
def sleepValOf (kwargs : List (String × PyVal)) : PyVal :=
  (dictPop kwargs "sleepLen" (.int 3)).1

/-- The value popped for `maxRetryCount` (default 0). -/
def mrcValOf (kwargs : List (String × PyVal)) : PyVal :=
  (dictPop (dictPop kwargs "sleepLen" (.int 3)).2 "maxRetryCount" (.int 0)).1

/-- The validation loop `for k in self._kwargs: if k not in
self._connectArgNameMap: raise ...`: the first key, in iteration order, that
is not a recognized connect keyword. -/
def firstBadKey (kw : List (String × PyVal)) : Option String :=
  (kw.map Prod.fst).find? (fun k => !((connectArgNameMap.map Prod.fst).contains k))

/-- `self._kwargs["read_default_group"] = "mysql"` when a defaults file was
requested. -/
def kwAfterRdf (kw : List (String × PyVal)) : List (String × PyVal) :=
  if dictContains kw "read_default_file" then
    dictSet kw "read_default_group" (.str "mysql")
  else kw

/-- `if self._kwargs.get("host", "") == "localhost": self._kwargs["host"] =
"127.0.0.1"`. -/
def kwAfterHost (kw : List (String × PyVal)) : List (String × PyVal) :=
  if dictGetD kw "host" (.str "") = .str "localhost" then
    dictSet kw "host" (.str "127.0.0.1")
  else kw

/-- `if "port" in self._kwargs: self._kwargs["port"] =
int(self._kwargs["port"])`. -/
def portStep (kw : List (String × PyVal)) : Except PyExc (List (String × PyVal)) :=
  match assocLookup kw "port" with
  | none => .ok kw
  | some v =>
    match pyToInt v with
    | some n => .ok (dictSet kw "port" (.int n))
    | none => .error .valueError

/-- The state a successfully constructed `Db` instance carries. -/
structure DbState where
  kwargs : List (String × PyVal)
  sleepLen : PyVal
  attemptMaxNo : Int
deriving DecidableEq, Repr

/-- `Db.__init__(**kwargs)`: pop the retry scalars, compute
`1 + maxRetryCount`, reject the first unrecognized keyword with
`DbException(INVALID_CONN_INFO, repr(k))`, then apply the defaults-file,
localhost and port adjustments. -/
def dbInit (kwargs : List (String × PyVal)) : Except PyExc DbState :=
  match pyAddOne (mrcValOf kwargs) with
  | none => .error .typeError
  | some aMax =>
    match firstBadKey (kwAfterPops kwargs) with
    | some k => .error (.dbExc INVALID_CONN_INFO [pyRepr k])
    | none =>
      match portStep (kwAfterHost (kwAfterRdf (kwAfterPops kwargs))) with
      | .error e => .error e
      | .ok kw5 => .ok ⟨kw5, sleepValOf kwargs, aMax⟩

/-- A connect target that always fails with MySQL error 2002
(cannot reach server), a connectivity-class code. -/
def alwaysDown : Nat → AttemptOutcome := fun _ => .mysqlError 2002 "down"

/-- A connect target that always fails with MySQL error 1045
(access denied), a code outside the error map. -/
def alwaysDenied : Nat → AttemptOutcome := fun _ => .mysqlError 1045 "denied"

/-! ## Helper lemmas -/

theorem isConnectionError_iff (c : Int) :
    isConnectionError c = true ↔ getErrCode c = SERVER_CONNECT := by
  simp [isConnectionError]

theorem assocLookup_eq_none {α β : Type} [DecidableEq α] (l : List (α × β))
    (key : α) (h : key ∉ l.map Prod.fst) : assocLookup l key = none := by
  induction l with
  | nil => rfl
  | cons p rest ih =>
    simp only [List.map_cons, List.mem_cons, not_or] at h
    obtain ⟨p1, p2⟩ := p
    simp only [assocLookup]
    rw [if_neg (fun hq => h.1 hq.symm), ih h.2]

/-! ## Claim theorems (error classifier and exception handling) -/

/-- C4: the error classifier is a pure function of the static code map: the
driver codes 2002, 2003, 2006 and 2013 all classify to `SERVER_CONNECT`,
every code absent from the map classifies to `SERVER_ERROR`, and
`isConnectionError(code)` holds exactly when the classified kind is
`SERVER_CONNECT`. -/
theorem classifier_spec :
    (getErrCode 2002 = SERVER_CONNECT ∧ getErrCode 2003 = SERVER_CONNECT ∧
     getErrCode 2006 = SERVER_CONNECT ∧ getErrCode 2013 = SERVER_CONNECT) ∧
    (∀ c : Int, c ∉ mysqlErrorMap.map Prod.fst → getErrCode c = SERVER_ERROR) ∧
    (∀ c : Int, isConnectionError c = true ↔ getErrCode c = SERVER_CONNECT) := by
  refine ⟨⟨rfl, rfl, rfl, rfl⟩, ?_, ?_⟩
  · intro c hc
    simp [getErrCode, assocLookup_eq_none _ _ hc]
  · intro c
    simp [isConnectionError]

/-- Witness for C4: 1045 (access denied) is absent from the map and
classifies to the generic server error. -/
theorem classifier_spec_witness : getErrCode 1045 = SERVER_ERROR :=
  classifier_spec.2.1 1045 (by decide)

/-- C5: a driver warning raised during statement execution surfaces as a
`DbException` of code `SERVER_WARNING` — never a silent success, and
`SERVER_WARNING` is distinct from every hard-error code. -/
theorem warning_elevated_to_server_warning :
    ∀ msg : String,
      execStatement (.raises (.mysqlWarning msg)) =
        .error (.dbExc SERVER_WARNING ["MySQL warning " ++ msg]) ∧
      execStatement (.raises (.mysqlWarning msg)) ≠ .ok () ∧
      SERVER_WARNING ∉ [CANT_CONNECT_TO_DB, CANT_EXEC_SCRIPT, DB_EXISTS,
        DB_DOES_NOT_EXIST, INVALID_CONN_INFO, INVALID_DB_NAME,
        INVALID_OPT_FILE, SERVER_CONNECT, SERVER_DISCONN, SERVER_ERROR,
        NO_DB_SELECTED, NOT_CONNECTED, TB_DOES_NOT_EXIST, TB_EXISTS,
        INTERNAL] :=
  fun _ => ⟨rfl, fun h => Except.noConfusion h, by decide⟩

/-- Witness for C5 at a concrete warning message. -/
theorem warning_elevated_to_server_warning_witness :
    execStatement (.raises (.mysqlWarning "truncated")) =
      .error (.dbExc SERVER_WARNING ["MySQL warning " ++ "truncated"]) :=
  (warning_elevated_to_server_warning "truncated").1

/-- C6: an exception that is neither a recognized driver error nor a driver
warning is re-raised unchanged by `_handleException`, never wrapped. -/
theorem unrecognized_exception_reraised (e : PyExc)
    (hE : e.isDriverError = false) (hW : e.isDriverWarning = false) :
    handleException e = e := by
  cases e <;> simp_all [PyExc.isDriverError, PyExc.isDriverWarning, handleException]

/-- Witness for C6 at a concrete unrecognized exception. -/
theorem unrecognized_exception_reraised_witness :
    (PyExc.other "boom").isDriverError = false ∧
    (PyExc.other "boom").isDriverWarning = false ∧
    handleException (PyExc.other "boom") = PyExc.other "boom" :=
  ⟨rfl, rfl, unrecognized_exception_reraised (PyExc.other "boom") rfl rfl⟩

/-- C10: `createDb` with an absent name raises
`DbException(INVALID_DB_NAME, "<None>")` with no statement issued, and
`dbExists` with an absent name returns false with no query issued. -/
theorem none_dbname_guards :
    ∀ (mayExist : Bool) (outcome : ExecOutcome) (outcome1 : Exec1Outcome),
      createDb none mayExist outcome =
        ([], .error (.dbExc INVALID_DB_NAME ["<None>"])) ∧
      dbExists none outcome1 = ([], .ok false) :=
  fun _ _ _ => ⟨rfl, rfl⟩

/-- C3 (amended): `isConnected` returns false when no handle is present and
true when the ping succeeds; a ping failure with an `OperationalError` whose
code classifies as a connection error raises `NameError` (the debug-log line
references the undefined name `error`) and leaves the handle in place; a ping
failure with any other `OperationalError` re-raises that driver exception
unchanged rather than a `DbException`. -/
theorem isConnected_behaviour :
    ∀ (p : PingOutcome) (c : Int) (m : String) (e : PyExc),
      isConnected none p = (none, .ret false) ∧
      isConnected (some ()) .ok = (some (), .ret true) ∧
      isConnected (some ()) (.opError c m) =
        (some (), .raised (if isConnectionError c then .nameError "error"
                           else .mysqlErr c m)) ∧
      isConnected (some ()) (.otherExc e) = (some (), .raised e) := by
  intro p c m e
  refine ⟨rfl, rfl, ?_, rfl⟩
  by_cases h : isConnectionError c <;> simp [isConnected, h]

/-- Counterexample to C3 as stated: with a live handle and a ping failing
with connectivity code 2006, `isConnected` does not invalidate the handle and
return false — it raises `NameError`; and with non-connectivity code 1045 it
re-raises the driver error itself, not a `DbException` of the classified
kind. -/
theorem isConnected_claim_counterexample :
    isConnected (some ()) (.opError 2006 "server gone") ≠ (none, .ret false) ∧
    isConnected (some ()) (.opError 2006 "server gone") =
      (some (), .raised (.nameError "error")) ∧
    isConnected (some ()) (.opError 1045 "denied") =
      (some (), .raised (.mysqlErr 1045 "denied")) := by
  refine ⟨?_, by decide, by decide⟩
  decide

/-- C7: each toggled schema operation issues its DDL statement, and when the
statement fails with a driver error it returns normally exactly when the
classified `DbException` code is the operation's already-exists /
does-not-exist code and the toggle permits it; otherwise the classified
`DbException` propagates. -/
theorem schema_toggle_suppression :
    ∀ (name tbl schemaDef : String) (dbN : Option String)
      (mayExist mustExist : Bool) (c : Int) (m : String),
      (createDb (some name) mayExist (.raises (.mysqlErr c m))).1 =
        ["CREATE DATABASE `" ++ name ++ "`"] ∧
      (createDb (some name) mayExist (.raises (.mysqlErr c m))).2 =
        (if getErrCode c = DB_EXISTS ∧ mayExist = true then .ok ()
         else .error (.dbExc (getErrCode c) [mysqlMsg c m])) ∧
      (dropDb name mustExist (.raises (.mysqlErr c m))).1 =
        ["DROP DATABASE `" ++ name ++ "`"] ∧
      (dropDb name mustExist (.raises (.mysqlErr c m))).2 =
        (if getErrCode c = DB_DOES_NOT_EXIST ∧ mustExist = false then .ok ()
         else .error (.dbExc (getErrCode c) [mysqlMsg c m])) ∧
      (createTable tbl schemaDef dbN mayExist (.raises (.mysqlErr c m))).1 =
        ["CREATE TABLE " ++ dbNameStrOpt dbN ++ "`" ++ tbl ++ "` " ++ schemaDef] ∧
      (createTable tbl schemaDef dbN mayExist (.raises (.mysqlErr c m))).2 =
        (if getErrCode c = TB_EXISTS ∧ mayExist = true then .ok ()
         else .error (.dbExc (getErrCode c) [mysqlMsg c m])) ∧
      (dropTable tbl dbN mustExist (.raises (.mysqlErr c m))).1 =
        ["DROP TABLE " ++ dbNameStrOpt dbN ++ "`" ++ tbl ++ "`"] ∧
      (dropTable tbl dbN mustExist (.raises (.mysqlErr c m))).2 =
        (if getErrCode c = TB_DOES_NOT_EXIST ∧ mustExist = false then .ok ()
         else .error (.dbExc (getErrCode c) [mysqlMsg c m])) :=
  fun _ _ _ _ _ _ _ _ => ⟨rfl, rfl, rfl, rfl, rfl, rfl, rfl, rfl⟩

/-- Witness for C7: `createDb` with `mayExist = true` swallows the
database-exists driver error 1007. -/
theorem schema_toggle_suppression_witness :
    (createDb (some "testdb") true (.raises (.mysqlErr 1007 "exists"))).2 =
      .ok () := by
  rw [(schema_toggle_suppression "testdb" "t" "(i int)" none true true
    1007 "exists").2.1]
  decide

/-! ## Claim theorems (connect retry loop) -/

theorem doConnectFrom_exhaust (outcomes : Nat → AttemptOutcome)
    (aMax sleepLen : Nat) :
    ∀ d n, aMax - n = d → 1 ≤ n → n ≤ aMax →
    (∀ k, n ≤ k → k ≤ aMax →
      ∃ c m, outcomes k = .mysqlError c m ∧ isConnectionError c = true) →
    ∃ c m, outcomes aMax = .mysqlError c m ∧
      doConnectFrom outcomes aMax sleepLen n =
        ⟨d + 1, if 0 < sleepLen then List.replicate d sleepLen else [],
         .error (.dbExc SERVER_CONNECT [mysqlMsg c m])⟩ := by
  intro d
  induction d with
  | zero =>
    intro n hd h1 hn hall
    have hna : n = aMax := by omega
    subst hna
    obtain ⟨c, m, hout, hconn⟩ := hall n le_rfl le_rfl
    refine ⟨c, m, hout, ?_⟩
    rw [doConnectFrom.eq_def, hout]
    simp only [dif_pos (Or.inl le_rfl)]
    rw [(isConnectionError_iff c).mp hconn]
    simp
  | succ d ih =>
    intro n hd h1 hn hall
    have hlt : n < aMax := by omega
    obtain ⟨c, m, hout, hconn⟩ := hall n le_rfl (le_of_lt hlt)
    have hcond : ¬(aMax ≤ n ∨ isConnectionError c = false) := by
      push_neg
      exact ⟨by omega, by simp [hconn]⟩
    obtain ⟨c2, m2, hout2, hrec⟩ := ih (n + 1) (by omega) (by omega) (by omega)
      (fun k hk1 hk2 => hall k (by omega) hk2)
    refine ⟨c2, m2, hout2, ?_⟩
    rw [doConnectFrom.eq_def, hout]
    simp only [dif_neg hcond]
    rw [hrec]
    by_cases hs : 0 < sleepLen
    · simp [hs, List.replicate_succ]
    · simp [hs]

/-- C1: with `attemptMaxNo = N ≥ 1` and every connect attempt failing with a
connectivity-class driver error, `_doConnect` performs exactly N physical
connection attempts, raises `DbException(SERVER_CONNECT, msg)` with the last
underlying driver message, sleeps `sleepLen` between consecutive attempts,
and issues no sleep call when `sleepLen` is zero. -/
theorem doConnect_all_connectivity_failures (outcomes : Nat → AttemptOutcome)
    (attemptMaxNo sleepLen : Nat) (h1 : 1 ≤ attemptMaxNo)
    (hall : ∀ k, 1 ≤ k → k ≤ attemptMaxNo →
      ∃ c m, outcomes k = .mysqlError c m ∧ isConnectionError c = true) :
    (doConnect outcomes attemptMaxNo sleepLen).attempts = attemptMaxNo ∧
    (∃ c m, outcomes attemptMaxNo = .mysqlError c m ∧
      (doConnect outcomes attemptMaxNo sleepLen).result =
        .error (.dbExc SERVER_CONNECT [mysqlMsg c m])) ∧
    (doConnect outcomes attemptMaxNo sleepLen).sleeps =
      (if 0 < sleepLen then List.replicate (attemptMaxNo - 1) sleepLen
       else []) := by
  obtain ⟨c, m, hout, heq⟩ := doConnectFrom_exhaust outcomes attemptMaxNo sleepLen
    (attemptMaxNo - 1) 1 rfl le_rfl h1 hall
  unfold doConnect
  rw [heq]
  exact ⟨by show attemptMaxNo - 1 + 1 = attemptMaxNo; omega,
         ⟨c, m, hout, rfl⟩, rfl⟩

/-- Witness for C1: three attempts against an always-down server with zero
sleep length: exactly 3 attempts, a `SERVER_CONNECT` error, and no sleeps. -/
theorem doConnect_all_connectivity_failures_witness :
    (doConnect alwaysDown 3 0).attempts = 3 ∧
    (∃ c m, alwaysDown 3 = AttemptOutcome.mysqlError c m ∧
      (doConnect alwaysDown 3 0).result =
        .error (.dbExc SERVER_CONNECT [mysqlMsg c m])) ∧
    (doConnect alwaysDown 3 0).sleeps =
      (if 0 < 0 then List.replicate (3 - 1) 0 else []) :=
  doConnect_all_connectivity_failures alwaysDown 3 0 (by decide)
    (fun k _ _ => ⟨2002, "down", rfl, by decide⟩)

theorem doConnectFrom_noncon (outcomes : Nat → AttemptOutcome)
    (aMax sleepLen : Nat) (c : Int) (m : String)
    (hnc : isConnectionError c = false) :
    ∀ d n k, k - n = d → n ≤ k → k ≤ aMax →
    (∀ j, n ≤ j → j < k →
      ∃ cj mj, outcomes j = .mysqlError cj mj ∧ isConnectionError cj = true) →
    outcomes k = .mysqlError c m →
    doConnectFrom outcomes aMax sleepLen n =
      ⟨d + 1, if 0 < sleepLen then List.replicate d sleepLen else [],
       .error (.dbExc (getErrCode c) [mysqlMsg c m])⟩ := by
  intro d
  induction d with
  | zero =>
    intro n k hd hnk hka hprev hout
    have hna : n = k := by omega
    subst hna
    rw [doConnectFrom.eq_def, hout]
    simp only [dif_pos (Or.inr hnc)]
    simp
  | succ d ih =>
    intro n k hd hnk hka hprev hout
    have hlt : n < k := by omega
    obtain ⟨cj, mj, houtj, hconnj⟩ := hprev n le_rfl hlt
    have hcond : ¬(aMax ≤ n ∨ isConnectionError cj = false) := by
      push_neg
      exact ⟨by omega, by simp [hconnj]⟩
    rw [doConnectFrom.eq_def, houtj]
    simp only [dif_neg hcond]
    rw [ih (n + 1) k (by omega) (by omega) hka
      (fun j hj1 hj2 => hprev j (by omega) hj2) hout]
    by_cases hs : 0 < sleepLen
    · simp [hs, List.replicate_succ]
    · simp [hs]

/-- C2: if the k-th connect attempt (with every earlier attempt a
connectivity failure) fails with a driver error whose classified kind is not
`SERVER_CONNECT`, the loop raises `DbException(getErrCode code, msg)` there
and then — attempt k is the last, no matter how many attempts remain under
`attemptMaxNo` — carrying the classified code and the underlying driver
message. -/
theorem doConnect_nonconnectivity_immediate (outcomes : Nat → AttemptOutcome)
    (attemptMaxNo sleepLen k : Nat) (c : Int) (m : String)
    (hk1 : 1 ≤ k) (hka : k ≤ attemptMaxNo)
    (hprev : ∀ j, 1 ≤ j → j < k →
      ∃ cj mj, outcomes j = .mysqlError cj mj ∧ isConnectionError cj = true)
    (hout : outcomes k = .mysqlError c m)
    (hnc : isConnectionError c = false) :
    (doConnect outcomes attemptMaxNo sleepLen).result =
      .error (.dbExc (getErrCode c) [mysqlMsg c m]) ∧
    (doConnect outcomes attemptMaxNo sleepLen).attempts = k := by
  have heq := doConnectFrom_noncon outcomes attemptMaxNo sleepLen c m hnc
    (k - 1) 1 k (by omega) hk1 hka hprev hout
  unfold doConnect
  rw [heq]
  exact ⟨rfl, by show k - 1 + 1 = k; omega⟩

/-- Witness for C2: a first-attempt access-denied error (code 1045) under
`attemptMaxNo = 5` raises at once after a single attempt. -/
theorem doConnect_nonconnectivity_immediate_witness :
    (doConnect alwaysDenied 5 3).result =
      .error (.dbExc (getErrCode 1045) [mysqlMsg 1045 "denied"]) ∧
    (doConnect alwaysDenied 5 3).attempts = 1 :=
  doConnect_nonconnectivity_immediate alwaysDenied 5 3 1 1045 "denied"
    (by decide) (by decide) (fun j hj1 hj2 => absurd hj2 (by omega))
    rfl (by decide)

/-! ## Dictionary lemmas for the constructor -/

theorem assocLookup_filter_ne (kw : List (String × PyVal)) (key key' : String)
    (h : key' ≠ key) :
    assocLookup (kw.filter (fun p => !(p.1 == key))) key' = assocLookup kw key' := by
  induction kw with
  | nil => rfl
  | cons p rest ih =>
    obtain ⟨p1, p2⟩ := p
    simp only [List.filter_cons]
    dsimp only
    by_cases hp : p1 = key
    · subst hp
      rw [if_neg (by simp)]
      rw [ih]
      simp only [assocLookup]
      rw [if_neg (fun hq => h hq.symm)]
    · have hb : (p1 == key) = false := beq_eq_false_iff_ne.mpr hp
      rw [if_pos (by simp [hb])]
      simp only [assocLookup, ih]

theorem assocLookup_mapReplace_ne (kw : List (String × PyVal))
    (key key' : String) (v : PyVal) (h : key' ≠ key) :
    assocLookup (kw.map (fun p => if p.1 == key then (p.1, v) else p)) key' =
      assocLookup kw key' := by
  induction kw with
  | nil => rfl
  | cons p rest ih =>
    obtain ⟨p1, p2⟩ := p
    simp only [List.map_cons]
    by_cases hp : p1 = key
    · subst hp
      rw [if_pos (beq_self_eq_true p1)]
      simp only [assocLookup, ih]
      rw [if_neg (fun hq => h hq.symm), if_neg (fun hq => h hq.symm)]
    · have hb : (p1 == key) = false := beq_eq_false_iff_ne.mpr hp
      rw [if_neg (by simp [hb])]
      simp only [assocLookup, ih]

theorem assocLookup_mapReplace_self (kw : List (String × PyVal))
    (key : String) (v : PyVal) (hc : key ∈ kw.map Prod.fst) :
    assocLookup (kw.map (fun p => if p.1 == key then (p.1, v) else p)) key =
      some v := by
  induction kw with
  | nil => cases hc
  | cons p rest ih =>
    obtain ⟨p1, p2⟩ := p
    simp only [List.map_cons]
    by_cases hp : p1 = key
    · subst hp
      rw [if_pos (beq_self_eq_true p1)]
      simp [assocLookup]
    · have hc' : key ∈ rest.map Prod.fst := by
        simp only [List.map_cons, List.mem_cons] at hc
        exact hc.resolve_left (fun hq => hp hq.symm)
      have hb : (p1 == key) = false := beq_eq_false_iff_ne.mpr hp
      rw [if_neg (by simp [hb])]
      simp only [assocLookup]
      rw [if_neg hp]
      exact ih hc'

theorem assocLookup_append_single_self (kw : List (String × PyVal))
    (key : String) (v : PyVal) (hc : key ∉ kw.map Prod.fst) :
    assocLookup (kw ++ [(key, v)]) key = some v := by
  induction kw with
  | nil => simp [assocLookup]
  | cons p rest ih =>
    obtain ⟨p1, p2⟩ := p
    simp only [List.map_cons, List.mem_cons, not_or] at hc
    simp only [List.cons_append, List.append_eq, assocLookup]
    rw [if_neg (fun hq => hc.1 hq.symm)]
    exact ih hc.2

theorem assocLookup_append_single_ne (kw : List (String × PyVal))
    (key key' : String) (v : PyVal) (h : key' ≠ key) :
    assocLookup (kw ++ [(key, v)]) key' = assocLookup kw key' := by
  induction kw with
  | nil =>
    simp only [List.nil_append, assocLookup]
    rw [if_neg (fun hq => h hq.symm)]
  | cons p rest ih =>
    obtain ⟨p1, p2⟩ := p
    simp only [List.cons_append, List.append_eq, assocLookup, ih]

theorem dictContains_iff {β : Type} (kw : List (String × β)) (key : String) :
    dictContains kw key = true ↔ key ∈ kw.map Prod.fst := by
  simp [dictContains, List.contains]

theorem assocLookup_dictSet_self (kw : List (String × PyVal))
    (key : String) (v : PyVal) :
    assocLookup (dictSet kw key v) key = some v := by
  unfold dictSet
  by_cases hc : dictContains kw key
  · rw [if_pos hc]
    exact assocLookup_mapReplace_self kw key v ((dictContains_iff kw key).mp hc)
  · rw [if_neg hc]
    exact assocLookup_append_single_self kw key v
      (fun hm => hc ((dictContains_iff kw key).mpr hm))

theorem assocLookup_dictSet_ne (kw : List (String × PyVal))
    (key key' : String) (v : PyVal) (h : key' ≠ key) :
    assocLookup (dictSet kw key v) key' = assocLookup kw key' := by
  unfold dictSet
  by_cases hc : dictContains kw key
  · rw [if_pos hc]
    exact assocLookup_mapReplace_ne kw key key' v h
  · rw [if_neg hc]
    exact assocLookup_append_single_ne kw key key' v h

theorem assocLookup_dictPop_ne (kw : List (String × PyVal))
    (key key' : String) (d : PyVal) (h : key' ≠ key) :
    assocLookup (dictPop kw key d).2 key' = assocLookup kw key' := by
  unfold dictPop
  cases hl : assocLookup kw key
  · simp only [hl]
  · simp only [hl]
    exact assocLookup_filter_ne kw key key' h

theorem kwAfterPops_lookup (kw : List (String × PyVal)) (key' : String)
    (h1 : key' ≠ "sleepLen") (h2 : key' ≠ "maxRetryCount") :
    assocLookup (kwAfterPops kw) key' = assocLookup kw key' := by
  unfold kwAfterPops
  rw [assocLookup_dictPop_ne _ _ _ _ h2, assocLookup_dictPop_ne _ _ _ _ h1]

theorem kwAfterRdf_lookup_ne (kw : List (String × PyVal)) (key' : String)
    (h1 : key' ≠ "read_default_group") :
    assocLookup (kwAfterRdf kw) key' = assocLookup kw key' := by
  unfold kwAfterRdf
  split
  · exact assocLookup_dictSet_ne _ _ _ _ h1
  · rfl

theorem portStep_lookup_ne (kw kw' : List (String × PyVal)) (key' : String)
    (h1 : key' ≠ "port") (h : portStep kw = .ok kw') :
    assocLookup kw' key' = assocLookup kw key' := by
  unfold portStep at h
  split at h
  · injection h with h2
    rw [← h2]
  · split at h
    · injection h with h2
      rw [← h2]
      exact assocLookup_dictSet_ne _ _ _ _ h1
    · cases h

theorem portStep_error_is_valueError (kw : List (String × PyVal)) (e : PyExc)
    (h : portStep kw = .error e) : e = .valueError := by
  unfold portStep at h
  split at h
  · cases h
  · split at h
    · cases h
    · injection h with h2
      rw [← h2]

/-! ## Claim theorems (constructor) -/

/-- C8: whenever construction succeeds, the stored host is never the literal
string "localhost"; in particular when the incoming host parameter equals
"localhost" the stored host is the loopback IP 127.0.0.1. -/
theorem localhost_rewritten (kwargs : List (String × PyVal)) (st : DbState)
    (hinit : dbInit kwargs = .ok st) :
    assocLookup st.kwargs "host" ≠ some (.str "localhost") ∧
    (dictGetD kwargs "host" (.str "") = .str "localhost" →
      assocLookup st.kwargs "host" = some (.str "127.0.0.1")) := by
  unfold dbInit at hinit
  split at hinit
  · cases hinit
  · split at hinit
    · cases hinit
    · split at hinit
      · cases hinit
      · rename_i kw5 hC
        injection hinit with h2
        subst h2
        dsimp only
        have h5 : assocLookup kw5 "host" =
            assocLookup (kwAfterHost (kwAfterRdf (kwAfterPops kwargs))) "host" :=
          portStep_lookup_ne _ _ _ (by decide) hC
        have hr : assocLookup (kwAfterRdf (kwAfterPops kwargs)) "host" =
            assocLookup kwargs "host" := by
          rw [kwAfterRdf_lookup_ne _ _ (by decide),
            kwAfterPops_lookup _ _ (by decide) (by decide)]
        have hgd : dictGetD (kwAfterRdf (kwAfterPops kwargs)) "host" (.str "") =
            dictGetD kwargs "host" (.str "") := by
          unfold dictGetD
          rw [hr]
        unfold kwAfterHost at h5
        by_cases hloc :
            dictGetD (kwAfterRdf (kwAfterPops kwargs)) "host" (.str "") =
              .str "localhost"
        · rw [if_pos hloc, assocLookup_dictSet_self] at h5
          constructor
          · rw [h5]
            intro hx
            simp at hx
          · intro _
            rw [h5]
        · rw [if_neg hloc] at h5
          have hsame : assocLookup kw5 "host" = assocLookup kwargs "host" :=
            h5.trans hr
          constructor
          · rw [hsame]
            intro hx
            apply hloc
            rw [hgd]
            unfold dictGetD
            rw [hx]
            rfl
          · intro hget
            exact absurd (hgd.trans hget) hloc

/-- Witness for C8: constructing with host "localhost" stores 127.0.0.1. -/
theorem localhost_rewritten_witness :
    assocLookup (DbState.mk [("host", PyVal.str "127.0.0.1")] (PyVal.int 3) 1).kwargs
        "host" ≠ some (PyVal.str "localhost") ∧
    assocLookup (DbState.mk [("host", PyVal.str "127.0.0.1")] (PyVal.int 3) 1).kwargs
        "host" = some (PyVal.str "127.0.0.1") :=
  ⟨(localhost_rewritten [("host", PyVal.str "localhost")] _ (by decide)).1,
   (localhost_rewritten [("host", PyVal.str "localhost")] _ (by decide)).2 (by decide)⟩

/-- C9: with well-typed retry scalars, a configuration mapping containing an
unrecognized keyword (after the two retry-policy scalars are popped) makes
construction raise `DbException(INVALID_CONN_INFO, repr(k))` naming an
offending key, while a mapping with only recognized keys never raises an
`INVALID_CONN_INFO` error. -/
theorem unknown_key_rejected (kwargs : List (String × PyVal))
    (hmrc : ∃ n, mrcValOf kwargs = PyVal.int n) :
    ((∃ k v, (k, v) ∈ kwAfterPops kwargs ∧
        ((connectArgNameMap.map Prod.fst).contains k) = false) →
      ∃ k, dbInit kwargs = .error (.dbExc INVALID_CONN_INFO [pyRepr k]) ∧
        (∃ v, (k, v) ∈ kwAfterPops kwargs) ∧
        ((connectArgNameMap.map Prod.fst).contains k) = false) ∧
    ((∀ k v, (k, v) ∈ kwAfterPops kwargs →
        ((connectArgNameMap.map Prod.fst).contains k) = true) →
      ∀ msgs, dbInit kwargs ≠ .error (.dbExc INVALID_CONN_INFO msgs)) := by
  obtain ⟨nn, hn⟩ := hmrc
  have hA : pyAddOne (mrcValOf kwargs) = some (1 + nn) := by
    rw [hn]
    rfl
  constructor
  · rintro ⟨k, v, hmem, hbad⟩
    have hne : firstBadKey (kwAfterPops kwargs) ≠ none := by
      intro h0
      unfold firstBadKey at h0
      rw [List.find?_eq_none] at h0
      have hk : k ∈ (kwAfterPops kwargs).map Prod.fst :=
        List.mem_map_of_mem Prod.fst hmem
      have hcontra := h0 k hk
      rw [hbad] at hcontra
      exact hcontra rfl
    cases hB : firstBadKey (kwAfterPops kwargs) with
    | none => exact absurd hB hne
    | some k2 =>
      have hpred := List.find?_some hB
      have hmem2 := List.mem_of_find?_eq_some hB
      rw [List.mem_map] at hmem2
      obtain ⟨p, hp, hfst⟩ := hmem2
      refine ⟨k2, ?_, ⟨p.2, ?_⟩, ?_⟩
      · simp only [dbInit, hA, hB]
      · rw [← hfst]
        simpa using hp
      · simpa using hpred
  · intro hgood msgs hEq
    cases hB : firstBadKey (kwAfterPops kwargs) with
    | some k2 =>
      have hpred := List.find?_some hB
      have hmem2 := List.mem_of_find?_eq_some hB
      rw [List.mem_map] at hmem2
      obtain ⟨p, hp, hfst⟩ := hmem2
      have hcon := hgood p.1 p.2 (by simpa using hp)
      rw [hfst] at hcon
      rw [hcon] at hpred
      exact Bool.noConfusion hpred
    | none =>
      simp only [dbInit, hA, hB] at hEq
      cases hC : portStep (kwAfterHost (kwAfterRdf (kwAfterPops kwargs))) with
      | error e =>
        simp only [hC] at hEq
        have hval := portStep_error_is_valueError _ _ hC
        subst hval
        injection hEq with h2
        cases h2
      | ok kw5 =>
        simp only [hC] at hEq
        cases hEq

/-- Witness for C9: the unrecognized keyword "bogus" is rejected at
construction time. -/
theorem unknown_key_rejected_witness :
    ∃ k, dbInit [("maxRetryCount", PyVal.int 2), ("bogus", PyVal.str "x")] =
        .error (.dbExc INVALID_CONN_INFO [pyRepr k]) ∧
      (∃ v, (k, v) ∈
        kwAfterPops [("maxRetryCount", PyVal.int 2), ("bogus", PyVal.str "x")]) ∧
      ((connectArgNameMap.map Prod.fst).contains k) = false :=
  (unknown_key_rejected [("maxRetryCount", PyVal.int 2), ("bogus", PyVal.str "x")]
      ⟨2, rfl⟩).1
    ⟨"bogus", PyVal.str "x", by decide, by decide⟩

end LsstDb
